import Mathlib

/-! Wishlists administration page: `service/static/js/rest_api.js`

A shallow embedding of the browser controller of the wishlists service and the
proofs of its request-building, rendering and failure-handling properties.

Modelling conventions.

* The page (DOM) is an explicit record `Dom`. For each `<input>` the script
  reads or writes it holds the string jQuery `.val()` returns for it; the inputs
  are single-line text inputs, which remove line breaks from a value set on
  them. For the status region `#flash_message` and the two table bodies it
  holds the list of contents appended since the region was last emptied: a text
  node, or the nodes the HTML parser of the browser builds from a markup
  string. The markup is kept as it was passed; `parseRows` interprets the part
  of HTML the list handler emits.
* A jQuery callback is a function `Dom → Dom × Completion`; `Completion.throw`
  is an uncaught JavaScript exception, and the page changes made before the
  exception stay in the returned `Dom`.
* The clock is an input: `getCurrentDate` takes the `Date` it would construct.
* Strings are Lean strings; every string the script manipulates by position
  (`slice`) consists of ASCII digits, where code units and code points agree.
-/

namespace Wishlists

/-! ## JavaScript values and primitive operations -/

/-- The JavaScript values a JSON response property can hold at the places where
the script reads one. Numbers are the safe integers (magnitude below 2^53),
which JavaScript represents exactly and prints in full. -/
inductive JSValue where
  | undefined
  | null
  | str (s : String)
  | num (n : Int) (safe : n.natAbs < 2 ^ 53)

/-- JavaScript `ToString`, as applied by `+` with a string operand and by a
template literal substitution. -/
def JSValue.toJSString : JSValue → String
  | .undefined => "undefined"
  | .null => "null"
  | .str s => s
  | .num n _ => toString n

/-- The kinds of JavaScript exception the script can raise. -/
inductive JSError where
  | typeError
  deriving DecidableEq, Repr

/-- How a callback ends: normally, or by an uncaught exception. -/
inductive Completion where
  | normal
  | throw (error : JSError)
  deriving DecidableEq, Repr

/-- JavaScript `String.prototype.slice(start)` with the end omitted: a negative `start`
counts from the end of the string, and the result runs to the end. -/
def jsSlice (s : String) (start : Int) : String :=
  let len : Int := s.length
  let from_ : Int := if start < 0 then max (len + start) 0 else min start len
  String.mk (s.data.drop from_.toNat)

/-- The three getters of a JavaScript `Date` that the script calls. -/
structure JSDate where
  /-- Result of `getFullYear()` -/
  fullYear : Int
  /-- Result of `getMonth()`, zero-based -/
  month : Nat
  /-- Result of `getDate()`, the day of the month -/
  date : Nat
  deriving DecidableEq, Repr

/-- Function `getCurrentDate` of rest_api.js (lines 1-7), with `new Date()` passed in as `today`. -/
def getCurrentDate (today : JSDate) : String :=
  let year := today.fullYear
  let month := jsSlice ("0" ++ toString (today.month + 1)) (-2)
  let day := jsSlice ("0" ++ toString today.date) (-2)
  toString year ++ "-" ++ month ++ "-" ++ day

/-! ## The page -/

/-- What one call of jQuery `.append` adds to a region. -/
inductive Content where
  /-- A text node holding `s`. -/
  | text (s : String)
  /-- The nodes the HTML parser builds from the markup `source`. -/
  | html (source : String)
  deriving DecidableEq, Repr

/-- The elements of the page that rest_api.js touches, named by element id. -/
structure Dom where
  wishlist_id : String
  wishlist_name : String
  user_name : String
  start_filter : String
  end_filter : String
  product_id : String
  product_name : String
  product_wishlist_id : String
  product_quantity : String
  flash_message : List Content
  wishlist_table_body : List Content
  product_table_body : List Content
  deriving DecidableEq, Repr

/-- Modelled from the spec: the form fields are single-value inputs, taken as
single-line text inputs (the markup of the page is not part of the script).
Such an input removes every line feed and carriage return from a value set on
it (the value sanitization of HTML). -/
def sanitizeValue (s : String) : String :=
  String.mk (s.data.filter (fun c => c ≠ '\n' ∧ c ≠ '\r'))

/-- The value `.val()` reads back after jQuery `.val(value)`: `null` and
`undefined` are set as the empty string, a number as its decimal string, and
the input removes the line breaks of what is set. -/
def valArg : JSValue → String
  | .undefined => ""
  | .null => ""
  | .str s => sanitizeValue s
  | .num n _ => toString n

/-- A character of the class `\w` of a JavaScript regular expression. -/
def isWordChar (c : Char) : Bool :=
  c.isAlphanum || c == '_'

/-- Match of `\w+;` at the start of the characters; `seen` tells whether a
word character was consumed already. -/
def wordsThenSemicolon : List Char → Bool → Bool
  | [], _ => false
  | c :: cs, seen => if isWordChar c then wordsThenSemicolon cs true else (seen && c == ';')

/-- Match of `#?\w+;` at the start of the characters. -/
def entityTail : List Char → Bool
  | '#' :: cs => wordsThenSemicolon cs false
  | cs => wordsThenSemicolon cs false

/-- The test `rhtml = /<|&#?\w+;/` by which jQuery decides whether a string is
markup: it holds a `<` or a character reference. -/
def rhtml : List Char → Bool
  | [] => false
  | c :: cs => c == '<' || (c == '&' && entityTail cs) || rhtml cs

/-- The effect of jQuery `.append(content)` on the contents of a region:
nothing for `null`, `undefined` and the empty string, a text node for a number
and for a string that is not markup, and the parsed nodes for a markup string. -/
def jqAppend (content : JSValue) (region : List Content) : List Content :=
  match content with
  | .undefined => region
  | .null => region
  | .num n _ => region ++ [.text (toString n)]
  | .str s =>
    if s = "" then region
    else if rhtml s.data then region ++ [.html s]
    else region ++ [.text s]

/-- A product entity of a response, reduced to the properties the script reads. -/
structure Product where
  id : JSValue
  wishlist_id : JSValue
  name : JSValue
  quantity : JSValue


/-- A wishlist entity of a response, reduced to the properties the script reads. -/
structure Wishlist where
  id : JSValue
  name : JSValue
  owner : JSValue
  products : List Product

/-- The parsed body of a failure response, reduced to its `message` property
(`undefined` when the body has none). -/
structure ErrorBody where
  message : JSValue

/-- The jqXHR object handed to a failure callback: `responseJSON` is `none`
(JavaScript `undefined`) when the response has no parseable JSON body. -/
structure JqXHR where
  responseJSON : Option ErrorBody

/-- Evaluation of the expression `res.responseJSON.message`: reading a property
of `undefined` raises a TypeError. -/
def responseMessage (res : JqXHR) : Except JSError JSValue :=
  match res.responseJSON with
  | none => .error .typeError
  | some body => .ok body.message

/-- The settings object passed to `$.ajax`. -/
structure AjaxSettings where
  type : String
  url : String
  contentType : String
  data : String
  deriving DecidableEq, Repr

/-! ## Utility functions of the script -/

/-- Function `update_form_data(res)` (lines 15-19). -/
def update_form_data (res : Wishlist) (dom : Dom) : Dom :=
  let dom := { dom with wishlist_id := valArg res.id }
  let dom := { dom with wishlist_name := valArg res.name }
  { dom with user_name := valArg res.owner }

/-- Function `clear_form_data()` (lines 22-28). -/
def clear_form_data (dom : Dom) : Dom :=
  let dom := { dom with wishlist_id := "" }
  let dom := { dom with wishlist_name := "" }
  let dom := { dom with user_name := "" }
  let dom := { dom with start_filter := "" }
  { dom with end_filter := "" }

/-- Function `flash_message(message)` (lines 31-34): empty the status region, then append. -/
def flash_message (message : JSValue) (dom : Dom) : Dom :=
  let dom := { dom with flash_message := [] }
  { dom with flash_message := jqAppend message dom.flash_message }

/-- Function `update_product_form_data(res)` (lines 263-268). -/
def update_product_form_data (res : Product) (dom : Dom) : Dom :=
  let dom := { dom with product_id := valArg res.id }
  let dom := { dom with product_name := valArg res.name }
  let dom := { dom with product_wishlist_id := valArg res.wishlist_id }
  { dom with product_quantity := valArg res.quantity }

/-- Function `clear_product_form_data()` (lines 271-275). -/
def clear_product_form_data (dom : Dom) : Dom :=
  let dom := { dom with product_id := "" }
  let dom := { dom with product_name := "" }
  { dom with product_quantity := "" }

/-! ## Callback registration and settlement -/

/-- A callback registered with `ajax.fail`. -/
abbrev FailCallback := JqXHR → Dom → Dom × Completion

/-- Settlement of a rejected request: the registered failure callbacks run in
registration order, and an exception thrown by one ends the run. -/
def rejectWith (callbacks : List FailCallback) (res : JqXHR) (dom : Dom) : Dom × Completion :=
  match callbacks with
  | [] => (dom, .normal)
  | cb :: rest =>
    match cb res dom with
    | (dom1, .normal) => rejectWith rest res dom1
    | (dom1, .throw e) => (dom1, .throw e)

/-- JavaScript `Array.prototype.forEach`, from index `index` on: the callback receives the
element, its index and the whole array, and acts on the enclosing variable `acc`. -/
def forEachFrom {α σ : Type} (callback : α → Nat → List α → σ → σ) (array : List α) :
    Nat → List α → σ → σ
  | _, [], acc => acc
  | index, x :: rest, acc => forEachFrom callback array (index + 1) rest (callback x index array acc)

/-- JavaScript `array.forEach(callback)`. -/
def forEach {α σ : Type} (callback : α → Nat → List α → σ → σ) (array : List α) (acc : σ) : σ :=
  forEachFrom callback array 0 array acc

/-! ## List all wishlists (lines 41-95) -/

/-- The click handler of `#list-btn` up to the `$.ajax` call: the page after
the handler and the request it issues. -/
def list_btn_click (dom : Dom) : Dom × AjaxSettings :=
  let owner := dom.user_name
  let start_date := dom.start_filter
  let end_date := dom.end_filter
  let dom := { dom with flash_message := [] }
  let queryString := ""
  let queryString := if owner ≠ "" then queryString ++ ("owner=" ++ owner) else queryString
  let queryString :=
    if start_date ≠ "" then
      queryString ++ ((if queryString ≠ "" then "&" else "") ++ "start=" ++ start_date)
    else queryString
  let queryString :=
    if end_date ≠ "" then
      queryString ++ ((if queryString ≠ "" then "&" else "") ++ "end=" ++ end_date)
    else queryString
  let url := "/wishlists"
  let url := if queryString ≠ "" then url ++ ("?" ++ queryString) else url
  (dom, { type := "GET", url := url, contentType := "application/json", data := "" })

/-- The callback of `wishlist.products.forEach` (lines 79-85), acting on `tableContent`. -/
def list_btn_product_callback (product : Product) (index : Nat) (array : List Product)
    (tableContent : String) : String :=
  if (index : Int) < (array.length : Int) - 1 then
    tableContent ++ (product.name.toJSString ++ ", ")
  else
    tableContent ++ product.name.toJSString

/-- The callback of `res.forEach` (lines 74-87), acting on `tableContent`. -/
def list_btn_wishlist_callback (wishlist : Wishlist) (_index : Nat) (_array : List Wishlist)
    (tableContent : String) : String :=
  let tableContent := tableContent ++
    ("<tr>\n                                    <td>" ++ wishlist.id.toJSString ++
     "</td>\n                                    <td>" ++ wishlist.name.toJSString ++
     "</td>\n                                    <td>")
  let tableContent := forEach list_btn_product_callback wishlist.products tableContent
  tableContent ++ "</td></tr>"

/-- The `ajax.done` callback of `#list-btn` (lines 71-90). -/
def list_btn_done (res : List Wishlist) (dom : Dom) : Dom × Completion :=
  let dom := { dom with wishlist_table_body := [] }
  let tableContent := ""
  let tableContent := forEach list_btn_wishlist_callback res tableContent
  let dom := { dom with wishlist_table_body := jqAppend (.str tableContent) dom.wishlist_table_body }
  (flash_message (.str "Wishlists retrieved successfully") dom, .normal)

/-- The `ajax.fail` callback of `#list-btn` (lines 92-94). -/
def list_btn_fail : FailCallback := fun res dom =>
  match responseMessage res with
  | .error e => (dom, .throw e)
  | .ok message =>
    (flash_message (.str ("Failed to retrieve wishlists: " ++ message.toJSString)) dom, .normal)

/-- The failure callbacks registered by the `#list-btn` handler. -/
def list_btn_failCallbacks : List FailCallback := [list_btn_fail]

/-! ## JSON.stringify -/

/-- The JavaScript values the script serialises: strings, arrays and objects
with their properties in insertion order. -/
inductive JSON where
  | str (s : String)
  | arr (items : List JSON)
  | obj (members : List (String × JSON))

/-- The escape `JSON.stringify` writes for one character of a string
(ECMAScript QuoteJSONString): the two-character escapes, a `\u00XX` escape for
the other control characters, and every other character as it is. -/
def quoteJSONChar (c : Char) : List Char :=
  if c = '\x08' then ['\\', 'b']
  else if c = '\t' then ['\\', 't']
  else if c = '\n' then ['\\', 'n']
  else if c = '\x0c' then ['\\', 'f']
  else if c = '\r' then ['\\', 'r']
  else if c = '"' then ['\\', '"']
  else if c = '\\' then ['\\', '\\']
  else if c.toNat < 32 then
    ['\\', 'u', '0', '0', Nat.digitChar (c.toNat / 16), Nat.digitChar (c.toNat % 16)]
  else [c]

/-- The quoted form `JSON.stringify` gives a string. -/
def quoteJSONString (s : String) : String :=
  "\"" ++ String.mk (s.data.flatMap quoteJSONChar) ++ "\""

mutual
/-- JavaScript `JSON.stringify(value)` without indentation. -/
def JSON.stringify : JSON → String
  | .str s => quoteJSONString s
  | .arr items => "[" ++ JSON.stringifyItems items ++ "]"
  | .obj members => "\x7b" ++ JSON.stringifyMembers members ++ "\x7d"
/-- The elements of an array, separated by commas. -/
def JSON.stringifyItems : List JSON → String
  | [] => ""
  | [x] => JSON.stringify x
  | x :: y :: rest => JSON.stringify x ++ "," ++ JSON.stringifyItems (y :: rest)
/-- The properties of an object, each as `"key":value`, separated by commas. -/
def JSON.stringifyMembers : List (String × JSON) → String
  | [] => ""
  | [(k, v)] => quoteJSONString k ++ ":" ++ JSON.stringify v
  | (k, v) :: m :: rest =>
    quoteJSONString k ++ ":" ++ JSON.stringify v ++ "," ++ JSON.stringifyMembers (m :: rest)
end

/-! ## Create, update, retrieve, copy and delete a wishlist (lines 101-256) -/

/-- The click handler of `#create-btn` up to the `$.ajax` call (lines 101-120). -/
def create_btn_click (today : JSDate) (dom : Dom) : Dom × AjaxSettings :=
  let owner := dom.user_name
  let name := dom.wishlist_name
  let date := getCurrentDate today
  let dom := { dom with flash_message := [] }
  let data := JSON.obj
    [("name", .str name), ("date_joined", .str date), ("products", .arr []), ("owner", .str owner)]
  (dom, { type := "POST", url := "/wishlists", contentType := "application/json",
          data := JSON.stringify data })

/-- The `ajax.done` callback of `#create-btn` (lines 122-125). -/
def create_btn_done (res : Wishlist) (dom : Dom) : Dom × Completion :=
  let dom := update_form_data res dom
  (flash_message (.str "Success") dom, .normal)

/-- The failure callbacks registered by the `#create-btn` handler: none, the
`ajax.fail` registration of lines 127-129 is commented out. -/
def create_btn_failCallbacks : List FailCallback := []

/-- The click handler of `#update-btn` up to the `$.ajax` call (lines 136-156). -/
def update_btn_click (today : JSDate) (dom : Dom) : Dom × AjaxSettings :=
  let wishlist_id := dom.wishlist_id
  let owner := dom.user_name
  let name := dom.wishlist_name
  let date := getCurrentDate today
  let data := JSON.obj
    [("name", .str name), ("date_joined", .str date), ("products", .arr []), ("owner", .str owner)]
  let dom := { dom with flash_message := [] }
  (dom, { type := "PUT", url := "/wishlists/" ++ wishlist_id, contentType := "application/json",
          data := JSON.stringify data })

/-- The `ajax.done` callback of `#update-btn` (lines 158-161). -/
def update_btn_done (res : Wishlist) (dom : Dom) : Dom × Completion :=
  let dom := update_form_data res dom
  (flash_message (.str "Success") dom, .normal)

/-- The `ajax.fail` callback of `#update-btn` (lines 163-165). -/
def update_btn_fail : FailCallback := fun res dom =>
  match responseMessage res with
  | .error e => (dom, .throw e)
  | .ok message => (flash_message message dom, .normal)

/-- The failure callbacks registered by the `#update-btn` handler. -/
def update_btn_failCallbacks : List FailCallback := [update_btn_fail]

/-- The click handler of `#retrieve-btn` up to the `$.ajax` call (lines 173-183). -/
def retrieve_btn_click (dom : Dom) : Dom × AjaxSettings :=
  let wishlist_id := dom.wishlist_id
  let dom := { dom with flash_message := [] }
  (dom, { type := "GET", url := "/wishlists/" ++ wishlist_id, contentType := "application/json",
          data := "" })

/-- The `ajax.done` callback of `#retrieve-btn` (lines 185-189). -/
def retrieve_btn_done (res : Wishlist) (dom : Dom) : Dom × Completion :=
  let dom := update_form_data res dom
  (flash_message (.str "Success") dom, .normal)

/-- The `ajax.fail` callback of `#retrieve-btn` (lines 191-194). -/
def retrieve_btn_fail : FailCallback := fun res dom =>
  let dom := clear_form_data dom
  match responseMessage res with
  | .error e => (dom, .throw e)
  | .ok message => (flash_message message dom, .normal)

/-- The failure callbacks registered by the `#retrieve-btn` handler. -/
def retrieve_btn_failCallbacks : List FailCallback := [retrieve_btn_fail]

/-- The click handler of `#delete-btn` up to the `$.ajax` call (lines 226-236). -/
def delete_btn_click (dom : Dom) : Dom × AjaxSettings :=
  let wishlist_id := dom.wishlist_id
  let dom := { dom with flash_message := [] }
  (dom, { type := "DELETE", url := "/wishlists/" ++ wishlist_id,
          contentType := "application/json", data := "" })

/-- The `ajax.done` callback of `#delete-btn` (lines 238-241). -/
def delete_btn_done (dom : Dom) : Dom × Completion :=
  let dom := clear_form_data dom
  (flash_message (.str "Wishlist has been Deleted!") dom, .normal)

/-- The `ajax.fail` callback of `#delete-btn` (lines 243-245). -/
def delete_btn_fail : FailCallback := fun _res dom =>
  (flash_message (.str "Server error!") dom, .normal)

/-- The failure callbacks registered by the `#delete-btn` handler. -/
def delete_btn_failCallbacks : List FailCallback := [delete_btn_fail]

/-- The click handler of `#clear-btn` (lines 252-256). -/
def clear_btn_click (dom : Dom) : Dom :=
  let dom := { dom with wishlist_id := "" }
  let dom := { dom with flash_message := [] }
  clear_form_data dom

/-! ## Products (lines 281-453) -/

/-- The `ajax.fail` callback of `#product-list-btn` (lines 308-310). -/
def product_list_btn_fail : FailCallback := fun res dom =>
  match responseMessage res with
  | .error e => (dom, .throw e)
  | .ok message =>
    (flash_message (.str ("Failed to retrieve products: " ++ message.toJSString)) dom, .normal)

/-- The failure callbacks registered by the `#product-list-btn` handler. -/
def product_list_btn_failCallbacks : List FailCallback := [product_list_btn_fail]

/-- The click handler of `#product-create-btn` up to the `$.ajax` call (lines 317-339). -/
def product_create_btn_click (dom : Dom) : Dom × AjaxSettings :=
  let product_id := dom.product_id
  let wishlist_id := dom.product_wishlist_id
  let name := dom.product_name
  let quantity := dom.product_quantity
  let dom := { dom with flash_message := [] }
  let data := JSON.obj
    [("id", .str product_id), ("wishlist_id", .str wishlist_id), ("name", .str name),
     ("quantity", .str quantity)]
  let dom := { dom with flash_message := [] }
  (dom, { type := "POST", url := "/wishlists/" ++ wishlist_id ++ "/products",
          contentType := "application/json", data := JSON.stringify data })

/-- The `ajax.done` callback of `#product-create-btn` (lines 341-344). -/
def product_create_btn_done (res : Product) (dom : Dom) : Dom × Completion :=
  let dom := update_product_form_data res dom
  (flash_message (.str "Product create Success") dom, .normal)

/-- The failure callbacks registered by the `#product-create-btn` handler: none,
the `ajax.fail` registration of lines 346-348 is commented out. -/
def product_create_btn_failCallbacks : List FailCallback := []

/-- The `ajax.fail` callback of `#product-update-btn` (lines 382-384). -/
def product_update_btn_fail : FailCallback := fun res dom =>
  match responseMessage res with
  | .error e => (dom, .throw e)
  | .ok message => (flash_message message dom, .normal)

/-- The failure callbacks registered by the `#product-update-btn` handler. -/
def product_update_btn_failCallbacks : List FailCallback := [product_update_btn_fail]

/-- The click handler of `#product-retrieve-btn` up to the `$.ajax` call (lines 392-403). -/
def product_retrieve_btn_click (dom : Dom) : Dom × AjaxSettings :=
  let product_id := dom.product_id
  let wishlist_id := dom.product_wishlist_id
  let dom := { dom with flash_message := [] }
  (dom, { type := "GET", url := "/wishlists/" ++ wishlist_id ++ "/products/" ++ product_id,
          contentType := "application/json", data := "" })

/-- The `ajax.fail` callback of `#product-retrieve-btn` (lines 411-414): it
calls `clear_form_data`, the clear operation of the wishlist form. -/
def product_retrieve_btn_fail : FailCallback := fun res dom =>
  let dom := clear_form_data dom
  match responseMessage res with
  | .error e => (dom, .throw e)
  | .ok message => (flash_message message dom, .normal)

/-- The failure callbacks registered by the `#product-retrieve-btn` handler. -/
def product_retrieve_btn_failCallbacks : List FailCallback := [product_retrieve_btn_fail]

/-- The click handler of `#product-delete-btn` up to the `$.ajax` call (lines 422-433). -/
def product_delete_btn_click (dom : Dom) : Dom × AjaxSettings :=
  let product_id := dom.product_id
  let wishlist_id := dom.product_wishlist_id
  let dom := { dom with flash_message := [] }
  (dom, { type := "DELETE", url := "/wishlists/" ++ wishlist_id ++ "/products/" ++ product_id,
          contentType := "application/json", data := "" })

/-- The `ajax.done` callback of `#product-delete-btn` (lines 435-438). -/
def product_delete_btn_done (dom : Dom) : Dom × Completion :=
  let dom := clear_product_form_data dom
  (flash_message (.str "Products has been Deleted!") dom, .normal)

/-- The `ajax.fail` callback of `#product-delete-btn` (lines 440-442). -/
def product_delete_btn_fail : FailCallback := fun _res dom =>
  (flash_message (.str "Server error!") dom, .normal)

/-- The failure callbacks registered by the `#product-delete-btn` handler. -/
def product_delete_btn_failCallbacks : List FailCallback := [product_delete_btn_fail]

/-- The click handler of `#product-clear-btn` (lines 449-453). -/
def product_clear_btn_click (dom : Dom) : Dom :=
  let dom := { dom with product_wishlist_id := "" }
  let dom := { dom with flash_message := [] }
  clear_product_form_data dom

/-! ## Reference definitions, written from the specification -/

/-- The query segments of the filters that are present (non-empty), in the
fixed order owner, start, end. -/
def presentSegments (owner start_date end_date : String) : List String :=
  (if owner ≠ "" then ["owner=" ++ owner] else []) ++
  (if start_date ≠ "" then ["start=" ++ start_date] else []) ++
  (if end_date ≠ "" then ["end=" ++ end_date] else [])

/-- The two-digit, zero-padded decimal of a number below 100. -/
def pad2 (n : Nat) : String :=
  String.mk [Nat.digitChar (n / 10), Nat.digitChar (n % 10)]

/-- The part of a string that starts at character `start` and has `len` characters. -/
def datePart (s : String) (start len : Nat) : String :=
  String.mk ((s.data.drop start).take len)

/-- The body the specification gives for create and update of a wishlist: the
keys name, date_joined, products, owner in this order, with an empty array of
products. -/
def wishlistBody (name date owner : String) : JSON :=
  .obj [("name", .str name), ("date_joined", .str date), ("products", .arr []),
        ("owner", .str owner)]

/-- The text of a region whose contents are text nodes only; `none` when the
region holds parsed markup, whose text the page model does not determine. -/
def regionText : List Content → Option String
  | [] => some ""
  | .text s :: rest => (regionText rest).map (fun t => s ++ t)
  | .html _ :: _ => none

/-- A string without line feed and carriage return. -/
def noLineBreak (s : String) : Bool :=
  s.data.all (fun c => c ≠ '\n' ∧ c ≠ '\r')

/-! ### The rows a table body shows

The markup the list handler appends is made of `<tr>`, `<td>`, `</td>` and
`</tr>` tags, white space between the tags and text inside the cells. The
definitions below follow the HTML parser on this part of HTML, and answer
`none` on everything else (other tags, attributes, character references,
carriage returns and NUL characters, text outside a cell, unclosed elements). -/

/-- The state of the parser: the rows closed so far, the cells of the open row,
the text of the open cell and the characters of the open tag. -/
structure ParseState where
  rows : List (List String)
  row : Option (List String)
  cell : Option (List Char)
  tag : Option (List Char)
  deriving DecidableEq, Repr

/-- The effect of a complete tag whose characters between `<` and `>` are `t`. -/
def closeTag (st : ParseState) (t : List Char) : Option ParseState :=
  if t = ['t', 'r'] then
    match st.row, st.cell with
    | none, none => some { st with row := some [], tag := none }
    | _, _ => none
  else if t = ['t', 'd'] then
    match st.row, st.cell with
    | some _, none => some { st with cell := some [], tag := none }
    | _, _ => none
  else if t = ['/', 't', 'd'] then
    match st.row, st.cell with
    | some cells, some text =>
      some { st with row := some (cells ++ [String.mk text]), cell := none, tag := none }
    | _, _ => none
  else if t = ['/', 't', 'r'] then
    match st.row, st.cell with
    | some cells, none => some { st with rows := st.rows ++ [cells], row := none, tag := none }
    | _, _ => none
  else none

/-- The effect of one character of the markup. -/
def parseStep (st : ParseState) (c : Char) : Option ParseState :=
  match st.tag with
  | some t =>
    if c = '>' then closeTag st t
    else if c = '<' then none
    else some { st with tag := some (t ++ [c]) }
  | none =>
    if c = '<' then some { st with tag := some [] }
    else if c = '&' ∨ c = '\r' ∨ c = '\x00' then none
    else
      match st.cell with
      | some text => some { st with cell := some (text ++ [c]) }
      | none => if c = ' ' ∨ c = '\n' ∨ c = '\t' ∨ c = '\x0c' then some st else none

/-- The state after the characters of the markup, from the state `st`. -/
def parseFrom : ParseState → List Char → Option ParseState
  | st, [] => some st
  | st, c :: cs =>
    match parseStep st c with
    | some st1 => parseFrom st1 cs
    | none => none

/-- The rows, each the list of the texts of its cells, that the HTML parser
builds from the markup; `none` outside the part of HTML described above. -/
def parseRows (markup : String) : Option (List (List String)) :=
  match parseFrom ⟨[], none, none, none⟩ markup.data with
  | some ⟨rows, none, none, none⟩ => some rows
  | _ => none

/-- The rows of a table body: those of the markup appended to it, in order;
`none` when a text node was appended or the markup is outside the part of HTML
that `parseRows` follows. -/
def regionRows : List Content → Option (List (List String))
  | [] => some []
  | .html source :: rest =>
    match parseRows source, regionRows rest with
    | some a, some b => some (a ++ b)
    | _, _ => none
  | .text _ :: _ => none

/-- A string that is text to the HTML parser as it stands: it holds no `<`, no
`&`, no carriage return and no NUL character. -/
def isPlainText (s : String) : Bool :=
  s.data.all (fun c => c ≠ '<' ∧ c ≠ '&' ∧ c ≠ '\r' ∧ c ≠ '\x00')

/-- The cells the specification gives the row of a wishlist: its id, its name
and the names of its products joined with ", ". -/
def wishlistCells (wishlist : Wishlist) : List String :=
  [wishlist.id.toJSString, wishlist.name.toJSString,
   ", ".intercalate (wishlist.products.map (fun p => p.name.toJSString))]

/-- A page used in the concrete evaluations: wishlist 42 and product 3 of
wishlist 7 are displayed. -/
def samplePage : Dom :=
  { wishlist_id := "42", wishlist_name := "Birthday", user_name := "alice",
    start_filter := "2024-01-01", end_filter := "2024-12-31",
    product_id := "3", product_name := "Ball", product_wishlist_id := "7",
    product_quantity := "2", flash_message := [], wishlist_table_body := [],
    product_table_body := [] }

/-! ## Lemmas on strings -/

theorem string_eq_empty_iff_length (s : String) : s = "" ↔ s.length = 0 := by
  constructor
  · intro h; subst h; rfl
  · intro h
    apply String.ext
    exact List.length_eq_zero.mp h

theorem append_ne_empty_left (s t : String) (h : s ≠ "") : s ++ t ≠ "" := by
  intro hst
  apply h
  rw [string_eq_empty_iff_length] at hst ⊢
  rw [String.length_append] at hst
  omega

theorem intercalate_go_append (sep : String) (l : List String) (acc x : String) :
    String.intercalate.go (acc ++ x) sep l = acc ++ String.intercalate.go x sep l := by
  induction l generalizing x with
  | nil => rfl
  | cons a l ih =>
    simp only [String.intercalate.go]
    rw [String.append_assoc, String.append_assoc, ← String.append_assoc x, ih]

theorem intercalate_cons_cons (sep a b : String) (l : List String) :
    sep.intercalate (a :: b :: l) = a ++ sep ++ sep.intercalate (b :: l) := by
  simp only [String.intercalate, String.intercalate.go]
  rw [intercalate_go_append]

/-! ## The query builder and the list rendering -/

/-- C1. The URL requested by the list-wishlists handler is "/wishlists" when the
owner, start and end fields are all empty, and otherwise "/wishlists?" followed
by the segments of the non-empty fields, in the order owner, start, end,
intercalated with "&". -/
theorem list_btn_url_intercalate (dom : Dom) :
    (list_btn_click dom).2.url =
      if dom.user_name = "" ∧ dom.start_filter = "" ∧ dom.end_filter = "" then "/wishlists"
      else "/wishlists?" ++
        "&".intercalate (presentSegments dom.user_name dom.start_filter dom.end_filter) := by
  have h1 : ∀ s : String, s ≠ "" → "owner=" ++ s ≠ "" :=
    fun s _ => append_ne_empty_left _ _ (by decide)
  have h2 : ∀ s : String, "start=" ++ s ≠ "" := fun s => append_ne_empty_left _ _ (by decide)
  have h3 : ∀ s : String, "end=" ++ s ≠ "" := fun s => append_ne_empty_left _ _ (by decide)
  have h4 : ∀ s t : String, s ≠ "" → s ++ t ≠ "" := fun s t h => append_ne_empty_left _ _ h
  have hq : ∀ t : String, "/wishlists?" ++ t = "/wishlists" ++ ("?" ++ t) :=
    fun t => by rw [← String.append_assoc]; rfl
  have hs2 : ∀ t : String, "&start=" ++ t = "&" ++ ("start=" ++ t) :=
    fun t => by rw [← String.append_assoc]; rfl
  have he2 : ∀ t : String, "&end=" ++ t = "&" ++ ("end=" ++ t) :=
    fun t => by rw [← String.append_assoc]; rfl
  by_cases ho : dom.user_name = "" <;> by_cases hs : dom.start_filter = "" <;>
    by_cases he : dom.end_filter = "" <;>
    simp [list_btn_click, presentSegments, ho, hs, he, h1, h2, h3, h4, String.intercalate,
      String.intercalate.go, String.append_assoc] <;>
    simp only [hq, hs2, he2]

theorem product_forEachFrom_eq (rest pre : List Product) (tableContent : String) :
    forEachFrom list_btn_product_callback (pre ++ rest) pre.length rest tableContent =
      tableContent ++ ", ".intercalate (rest.map (fun p => p.name.toJSString)) := by
  induction rest generalizing pre tableContent with
  | nil => simp [forEachFrom, String.intercalate]
  | cons p rest ih =>
    have hpre : pre ++ p :: rest = (pre ++ [p]) ++ rest := by simp
    have hlen : pre.length + 1 = (pre ++ [p]).length := by simp
    cases rest with
    | nil =>
      simp [forEachFrom, list_btn_product_callback, String.intercalate, String.intercalate.go]
    | cons q rest =>
      have hlt : (pre.length : Int) < ((pre ++ p :: q :: rest).length : Int) - 1 := by
        simp only [List.length_append, List.length_cons]
        push_cast
        omega
      have hmap : q.name.toJSString :: List.map (fun p : Product => p.name.toJSString) rest =
          List.map (fun p : Product => p.name.toJSString) (q :: rest) := rfl
      rw [List.map_cons, List.map_cons, intercalate_cons_cons, hmap]
      have hstep : forEachFrom list_btn_product_callback (pre ++ p :: q :: rest) pre.length
          (p :: q :: rest) tableContent =
          forEachFrom list_btn_product_callback (pre ++ p :: q :: rest) (pre.length + 1)
            (q :: rest)
            (list_btn_product_callback p pre.length (pre ++ p :: q :: rest) tableContent) := rfl
      have hcb : list_btn_product_callback p pre.length (pre ++ p :: q :: rest) tableContent =
          tableContent ++ (p.name.toJSString ++ ", ") := by
        simp only [list_btn_product_callback, hlt, if_true]
      rw [hstep, hcb, hpre, hlen, ih (pre ++ [p])]
      simp only [String.append_assoc]

theorem list_btn_wishlist_callback_eq (wishlist : Wishlist) (index : Nat)
    (array : List Wishlist) (tableContent : String) :
    list_btn_wishlist_callback wishlist index array tableContent =
      tableContent ++
        ("<tr>\n                                    <td>" ++ wishlist.id.toJSString ++
         "</td>\n                                    <td>" ++ wishlist.name.toJSString ++
         "</td>\n                                    <td>") ++
        ", ".intercalate (wishlist.products.map (fun p => p.name.toJSString)) ++
        "</td></tr>" := by
  have h := product_forEachFrom_eq wishlist.products []
  simp only [List.nil_append, List.length_nil] at h
  simp only [list_btn_wishlist_callback, forEach, h]

/-! ## The date -/

theorem toDigitsCore_small (fuel n : Nat) (ds : List Char) (hf : 0 < fuel) (hn : n < 10) :
    Nat.toDigitsCore 10 fuel n ds = Nat.digitChar n :: ds := by
  obtain ⟨k, rfl⟩ : ∃ k, fuel = k + 1 := ⟨fuel - 1, by omega⟩
  have h0 : n / 10 = 0 := by omega
  have h1 : n % 10 = n := by omega
  simp [Nat.toDigitsCore, h0, h1]

theorem toDigitsCore_step (fuel n : Nat) (ds : List Char) (hf : 0 < fuel) (hn : 10 ≤ n) :
    Nat.toDigitsCore 10 fuel n ds =
      Nat.toDigitsCore 10 (fuel - 1) (n / 10) (Nat.digitChar (n % 10) :: ds) := by
  obtain ⟨k, rfl⟩ : ∃ k, fuel = k + 1 := ⟨fuel - 1, by omega⟩
  have h0 : n / 10 ≠ 0 := by omega
  simp [Nat.toDigitsCore, h0]

theorem toString_one_digit (n : Nat) (hn : n < 10) :
    toString n = String.mk [Nat.digitChar n] := by
  show (Nat.toDigits 10 n).asString = _
  rw [Nat.toDigits, toDigitsCore_small _ _ _ (by omega) hn]
  rfl

theorem toString_two_digits (n : Nat) (h1 : 10 ≤ n) (h2 : n < 100) :
    toString n = String.mk [Nat.digitChar (n / 10), Nat.digitChar (n % 10)] := by
  show (Nat.toDigits 10 n).asString = _
  rw [Nat.toDigits, toDigitsCore_step _ _ _ (by omega) h1,
    toDigitsCore_small _ _ _ (by omega) (by omega)]
  rfl

theorem toString_four_digits (n : Nat) (h1 : 1000 ≤ n) (h2 : n < 10000) :
    toString n = String.mk [Nat.digitChar (n / 1000), Nat.digitChar (n / 100 % 10),
      Nat.digitChar (n / 10 % 10), Nat.digitChar (n % 10)] := by
  show (Nat.toDigits 10 n).asString = _
  rw [Nat.toDigits, toDigitsCore_step _ _ _ (by omega) (by omega),
    toDigitsCore_step _ _ _ (by omega) (by omega),
    toDigitsCore_step _ _ _ (by omega) (by omega),
    toDigitsCore_small _ _ _ (by omega) (by omega)]
  have e1 : n / 10 / 10 / 10 = n / 1000 := by omega
  have e2 : n / 10 / 10 % 10 = n / 100 % 10 := by omega
  rw [e1, e2]
  rfl

theorem slice_pad2 (n : Nat) (hn : n < 100) : jsSlice ("0" ++ toString n) (-2) = pad2 n := by
  by_cases h : n < 10
  · have h0 : n / 10 = 0 := by omega
    have h1 : n % 10 = n := by omega
    rw [toString_one_digit n h, pad2, h0, h1]
    rfl
  · rw [toString_two_digits n (by omega) hn, pad2]
    rfl

theorem getCurrentDate_eq (y m d : Nat) (hy1 : 1000 ≤ y) (hy2 : y ≤ 9999) (hm : m ≤ 11)
    (hd : d ≤ 31) :
    getCurrentDate ⟨(y : Int), m, d⟩ =
      String.mk [Nat.digitChar (y / 1000), Nat.digitChar (y / 100 % 10),
        Nat.digitChar (y / 10 % 10), Nat.digitChar (y % 10), '-',
        Nat.digitChar ((m + 1) / 10), Nat.digitChar ((m + 1) % 10), '-',
        Nat.digitChar (d / 10), Nat.digitChar (d % 10)] := by
  have hyear : toString (y : Int) = toString y := rfl
  simp only [getCurrentDate]
  rw [hyear, toString_four_digits y hy1 (by omega), slice_pad2 (m + 1) (by omega),
    slice_pad2 d (by omega)]
  rfl

theorem digitChar_isDigit (n : Nat) (hn : n < 10) : (Nat.digitChar n).isDigit = true := by
  interval_cases n <;> rfl

theorem digitChar_value (n : Nat) (hn : n < 10) : (Nat.digitChar n).toNat - '0'.toNat = n := by
  interval_cases n <;> rfl

theorem toNat_of_digits (l : List Nat) (hl : l ≠ []) (h : ∀ n ∈ l, n < 10) :
    (String.mk (l.map Nat.digitChar)).toNat? = some (l.foldl (fun a n => a * 10 + n) 0) := by
  have hne : (String.mk (l.map Nat.digitChar)).isEmpty = false := by
    rw [Bool.eq_false_iff]
    intro he
    rw [String.isEmpty_iff] at he
    have := congrArg String.data he
    simp at this
    exact hl this
  have hall : (String.mk (l.map Nat.digitChar)).all (fun c => c.isDigit) = true := by
    rw [String.all_eq]
    simp only [List.all_eq_true, List.mem_map]
    rintro c ⟨n, hn, rfl⟩
    exact digitChar_isDigit n (h n hn)
  have hfold : ∀ (l : List Nat) (a : Nat), (∀ n ∈ l, n < 10) →
      List.foldl (fun n c => n * 10 + (c.toNat - '0'.toNat)) a (l.map Nat.digitChar) =
        l.foldl (fun a n => a * 10 + n) a := by
    intro l
    induction l with
    | nil => intro a _; rfl
    | cons x l ih =>
      intro a hx
      simp only [List.map_cons, List.foldl_cons]
      rw [digitChar_value x (hx x (List.mem_cons_self _ _))]
      exact ih _ (fun n hn => hx n (List.mem_cons_of_mem _ hn))
  simp only [String.toNat?, String.isNat, hne, hall, Bool.not_false, Bool.and_self, if_true]
  rw [String.foldl_eq]
  exact congrArg some (hfold l 0 h)

/-- C7. For a local date with year `y` in 1000..9999, month index `m` in 0..11
and day `d` in 1..31, `getCurrentDate` returns a string of 10 characters made of
the decimal of `y`, a hyphen, the two-digit zero-padded decimal of `m + 1`, a
hyphen and the two-digit zero-padded decimal of `d`; the three parts, parsed as
numbers, give back `y`, `m + 1` and `d`. -/
theorem getCurrentDate_format (y m d : Nat) (hy : 1000 ≤ y ∧ y ≤ 9999) (hm : m ≤ 11)
    (hd : 1 ≤ d ∧ d ≤ 31) :
    (getCurrentDate ⟨(y : Int), m, d⟩).length = 10 ∧
    getCurrentDate ⟨(y : Int), m, d⟩ = toString y ++ "-" ++ pad2 (m + 1) ++ "-" ++ pad2 d ∧
    datePart (getCurrentDate ⟨(y : Int), m, d⟩) 0 4 = toString y ∧
    datePart (getCurrentDate ⟨(y : Int), m, d⟩) 4 1 = "-" ∧
    datePart (getCurrentDate ⟨(y : Int), m, d⟩) 5 2 = pad2 (m + 1) ∧
    datePart (getCurrentDate ⟨(y : Int), m, d⟩) 7 1 = "-" ∧
    datePart (getCurrentDate ⟨(y : Int), m, d⟩) 8 2 = pad2 d ∧
    (datePart (getCurrentDate ⟨(y : Int), m, d⟩) 0 4).toNat? = some y ∧
    (datePart (getCurrentDate ⟨(y : Int), m, d⟩) 5 2).toNat? = some (m + 1) ∧
    (datePart (getCurrentDate ⟨(y : Int), m, d⟩) 8 2).toNat? = some d := by
  obtain ⟨hy1, hy2⟩ := hy
  obtain ⟨_, hd2⟩ := hd
  rw [getCurrentDate_eq y m d hy1 hy2 hm hd2]
  have hyear := toString_four_digits y hy1 (by omega)
  have hparse4 := toNat_of_digits [y / 1000, y / 100 % 10, y / 10 % 10, y % 10] (by simp)
    (by intro n hn; simp only [List.mem_cons, List.mem_singleton, List.not_mem_nil, or_false] at hn; omega)
  have hparseM := toNat_of_digits [(m + 1) / 10, (m + 1) % 10] (by simp)
    (by intro n hn; simp only [List.mem_cons, List.mem_singleton, List.not_mem_nil, or_false] at hn; omega)
  have hparseD := toNat_of_digits [d / 10, d % 10] (by simp)
    (by intro n hn; simp only [List.mem_cons, List.mem_singleton, List.not_mem_nil, or_false] at hn; omega)
  simp only [List.map_cons, List.map_nil, List.foldl_cons, List.foldl_nil] at hparse4 hparseM hparseD
  refine ⟨rfl, ?_, ?_, rfl, rfl, rfl, rfl, ?_, ?_, ?_⟩
  · rw [hyear]; rfl
  · rw [hyear]; rfl
  · show (String.mk [Nat.digitChar (y / 1000), Nat.digitChar (y / 100 % 10),
      Nat.digitChar (y / 10 % 10), Nat.digitChar (y % 10)]).toNat? = some y
    rw [hparse4]
    congr 1
    omega
  · show (String.mk [Nat.digitChar ((m + 1) / 10), Nat.digitChar ((m + 1) % 10)]).toNat? =
      some (m + 1)
    rw [hparseM]
    congr 1
    omega
  · show (String.mk [Nat.digitChar (d / 10), Nat.digitChar (d % 10)]).toNat? = some d
    rw [hparseD]
    congr 1
    omega

/-- C7, at a concrete date: 7 March 2024 (month index 2) is rendered "2024-03-07". -/
theorem getCurrentDate_format_witness :
    getCurrentDate ⟨2024, 2, 7⟩ = "2024-03-07" ∧
    (getCurrentDate ⟨((2024 : Nat) : Int), 2, 7⟩).length = 10 ∧
    (datePart (getCurrentDate ⟨((2024 : Nat) : Int), 2, 7⟩) 5 2).toNat? = some (2 + 1) :=
  have h := getCurrentDate_format 2024 2 7 (by decide) (by decide) (by decide)
  ⟨by decide, h.1, h.2.2.2.2.2.2.2.2.1⟩

/-! ## Clearing and populating the forms -/

/-- C2. A retrieve-product request that fails with the body `{"message":"not found"}`
on the sample page: the failure callback runs to completion and shows the
message, but the product id, name and quantity fields keep "3", "Ball" and "2",
while the wishlist form (id, name, owner) is emptied instead. The failed
retrieve-wishlist, on the same page and response, empties the wishlist fields. -/
theorem product_retrieve_fail_keeps_product_fields :
    (rejectWith product_retrieve_btn_failCallbacks ⟨some ⟨.str "not found"⟩⟩
        (product_retrieve_btn_click samplePage).1) =
      ({ samplePage with wishlist_id := "", wishlist_name := "", user_name := "",
                         start_filter := "", end_filter := "",
                         flash_message := [.text "not found"] }, .normal) ∧
    (rejectWith product_retrieve_btn_failCallbacks ⟨some ⟨.str "not found"⟩⟩
        (product_retrieve_btn_click samplePage).1).1.product_id = "3" ∧
    (rejectWith product_retrieve_btn_failCallbacks ⟨some ⟨.str "not found"⟩⟩
        (product_retrieve_btn_click samplePage).1).1.product_name = "Ball" ∧
    (rejectWith product_retrieve_btn_failCallbacks ⟨some ⟨.str "not found"⟩⟩
        (product_retrieve_btn_click samplePage).1).1.product_quantity = "2" ∧
    (rejectWith retrieve_btn_failCallbacks ⟨some ⟨.str "not found"⟩⟩
        (retrieve_btn_click samplePage).1) =
      ({ samplePage with wishlist_id := "", wishlist_name := "", user_name := "",
                         start_filter := "", end_filter := "",
                         flash_message := [.text "not found"] }, .normal) := by
  refine ⟨?_, ?_, ?_, ?_, ?_⟩ <;> decide

/-- C3. On the sample page `clear_product_form_data`, called once or twice,
empties the product id, name and quantity fields and leaves the product
wishlist-id field at "7"; `clear_form_data` empties all five wishlist fields of
every page, after one call and after two. -/
theorem clear_product_form_data_keeps_wishlist_id :
    (clear_product_form_data samplePage).product_wishlist_id = "7" ∧
    (clear_product_form_data (clear_product_form_data samplePage)).product_wishlist_id = "7" ∧
    clear_product_form_data samplePage =
      { samplePage with product_id := "", product_name := "", product_quantity := "" } ∧
    clear_product_form_data (clear_product_form_data samplePage) =
      clear_product_form_data samplePage ∧
    (∀ dom : Dom,
      clear_form_data dom =
        { dom with wishlist_id := "", wishlist_name := "", user_name := "",
                   start_filter := "", end_filter := "" } ∧
      clear_form_data (clear_form_data dom) = clear_form_data dom) := by
  refine ⟨by decide, by decide, by decide, by decide, fun dom => ⟨rfl, rfl⟩⟩

theorem sanitizeValue_of_noLineBreak (s : String) (h : noLineBreak s = true) :
    sanitizeValue s = s := by
  unfold sanitizeValue
  have hf : s.data.filter (fun c => decide (c ≠ '\n' ∧ c ≠ '\r')) = s.data := by
    rw [List.filter_eq_self]
    intro c hc
    exact List.all_eq_true.mp h c hc
  rw [hf]

/-- C10, as stated, fails: a response entity whose name is the string
"two", line feed, "lines" is written to the name field by `update_form_data`,
and the field reads back "twolines", not the written string. -/
theorem populate_line_break_not_read_back :
    (update_form_data ⟨.str "42", .str "two\nlines", .str "alice", []⟩ samplePage).wishlist_name
      = "twolines" ∧
    (update_form_data ⟨.str "42", .str "two\nlines", .str "alice", []⟩ samplePage).wishlist_name
      ≠ "two\nlines" := by
  constructor <;> decide

/-- C10, amended. Populating a form from a response entity whose fields are
strings without line breaks and reading the fields back returns the written
strings. For all string fields, `update_form_data` writes exactly the wishlist
id, name and owner fields and `update_product_form_data` exactly the product
id, name, wishlist-id and quantity fields, each with the written string less
its line breaks, and no other element of the page changes. -/
theorem populate_read_back (dom : Dom) (id name owner : String) (products : List Product)
    (pid pname pwid pquantity : String)
    (hid : noLineBreak id = true) (hname : noLineBreak name = true)
    (howner : noLineBreak owner = true) (hpid : noLineBreak pid = true)
    (hpname : noLineBreak pname = true) (hpwid : noLineBreak pwid = true)
    (hpquantity : noLineBreak pquantity = true) :
    (update_form_data ⟨.str id, .str name, .str owner, products⟩ dom).wishlist_id = id ∧
    (update_form_data ⟨.str id, .str name, .str owner, products⟩ dom).wishlist_name = name ∧
    (update_form_data ⟨.str id, .str name, .str owner, products⟩ dom).user_name = owner ∧
    update_form_data ⟨.str id, .str name, .str owner, products⟩ dom =
      { dom with wishlist_id := id, wishlist_name := name, user_name := owner } ∧
    (update_product_form_data ⟨.str pid, .str pwid, .str pname, .str pquantity⟩ dom).product_id
      = pid ∧
    (update_product_form_data ⟨.str pid, .str pwid, .str pname, .str pquantity⟩ dom).product_name
      = pname ∧
    (update_product_form_data ⟨.str pid, .str pwid, .str pname,
      .str pquantity⟩ dom).product_wishlist_id = pwid ∧
    (update_product_form_data ⟨.str pid, .str pwid, .str pname,
      .str pquantity⟩ dom).product_quantity = pquantity ∧
    update_product_form_data ⟨.str pid, .str pwid, .str pname, .str pquantity⟩ dom =
      { dom with product_id := pid, product_name := pname, product_wishlist_id := pwid,
                 product_quantity := pquantity } ∧
    (∀ a b c d : String,
      update_form_data ⟨.str a, .str b, .str c, products⟩ dom =
        { dom with wishlist_id := sanitizeValue a, wishlist_name := sanitizeValue b,
                   user_name := sanitizeValue c } ∧
      update_product_form_data ⟨.str a, .str b, .str c, .str d⟩ dom =
        { dom with product_id := sanitizeValue a, product_name := sanitizeValue c,
                   product_wishlist_id := sanitizeValue b,
                   product_quantity := sanitizeValue d }) := by
  have e1 := sanitizeValue_of_noLineBreak _ hid
  have e2 := sanitizeValue_of_noLineBreak _ hname
  have e3 := sanitizeValue_of_noLineBreak _ howner
  have e4 := sanitizeValue_of_noLineBreak _ hpid
  have e5 := sanitizeValue_of_noLineBreak _ hpname
  have e6 := sanitizeValue_of_noLineBreak _ hpwid
  have e7 := sanitizeValue_of_noLineBreak _ hpquantity
  refine ⟨?_, ?_, ?_, ?_, ?_, ?_, ?_, ?_, ?_, fun _ _ _ _ => ⟨rfl, rfl⟩⟩ <;>
    simp only [update_form_data, update_product_form_data, valArg, e1, e2, e3, e4, e5, e6, e7]

/-- C10, amended, at the entities of the sample page: wishlist 42 "Birthday"
of "alice" and product 3 "Ball" of wishlist 7 with quantity "2" are read back
as written. -/
theorem populate_read_back_witness :
    (update_form_data ⟨.str "42", .str "Birthday", .str "alice", []⟩ samplePage).wishlist_name
      = "Birthday" ∧
    (update_product_form_data ⟨.str "3", .str "7", .str "Ball", .str "2"⟩
      samplePage).product_quantity = "2" :=
  have h := populate_read_back samplePage "42" "Birthday" "alice" [] "3" "Ball" "7" "2"
    (by decide) (by decide) (by decide) (by decide) (by decide) (by decide) (by decide)
  ⟨h.2.1, h.2.2.2.2.2.2.2.1⟩

/-! ## Failure handling -/

theorem rhtml_append_of_no_markup (p m : List Char) (hp : ∀ c ∈ p, c ≠ '<' ∧ c ≠ '&') :
    rhtml (p ++ m) = rhtml m := by
  induction p with
  | nil => rfl
  | cons c p ih =>
    have hc := hp c (List.mem_cons_self _ _)
    have ih2 := ih (fun d hd => hp d (List.mem_cons_of_mem _ hd))
    simp [rhtml, hc.1, hc.2, ih2]

theorem jqAppend_text (m : String) (h : rhtml m.data = false) :
    regionText (jqAppend (.str m) []) = some m := by
  by_cases hm : m = ""
  · subst hm; rfl
  · simp [jqAppend, hm, h, regionText]

theorem jqAppend_text_after (p m : String) (hp : ∀ c ∈ p.data, c ≠ '<' ∧ c ≠ '&')
    (hne : p ≠ "") (h : rhtml m.data = false) :
    jqAppend (.str (p ++ m)) [] = [.text (p ++ m)] := by
  have h1 : p ++ m ≠ "" := append_ne_empty_left p m hne
  have h2 : rhtml (p ++ m).data = false := by
    rw [String.data_append, rhtml_append_of_no_markup _ _ hp, h]
  show (if p ++ m = "" then [] else if rhtml (p ++ m).data = true then [] ++ [Content.html (p ++ m)]
    else [] ++ [Content.text (p ++ m)]) = [Content.text (p ++ m)]
  rw [if_neg h1, h2]
  rfl

/-- C4, as stated, fails: a list-wishlists, update-wishlist or retrieve-wishlist
request on the sample page that is rejected without a response body does not
produce a generic failure text. The failure callback ends with an exception and
the status region stays empty. With a body that has no message field the
update callback completes and the status region is empty as well. -/
theorem fail_without_body_aborts :
    (rejectWith list_btn_failCallbacks ⟨none⟩ (list_btn_click samplePage).1).2 ≠ .normal ∧
    (rejectWith list_btn_failCallbacks ⟨none⟩ (list_btn_click samplePage).1).1.flash_message
      = [] ∧
    (rejectWith update_btn_failCallbacks ⟨none⟩
      (update_btn_click ⟨2024, 2, 7⟩ samplePage).1).2 ≠ .normal ∧
    (rejectWith update_btn_failCallbacks ⟨none⟩
      (update_btn_click ⟨2024, 2, 7⟩ samplePage).1).1.flash_message = [] ∧
    (rejectWith retrieve_btn_failCallbacks ⟨none⟩ (retrieve_btn_click samplePage).1).2
      ≠ .normal ∧
    (rejectWith retrieve_btn_failCallbacks ⟨none⟩
      (retrieve_btn_click samplePage).1).1.flash_message = [] ∧
    (rejectWith update_btn_failCallbacks ⟨some ⟨.undefined⟩⟩
      (update_btn_click ⟨2024, 2, 7⟩ samplePage).1).1.flash_message = [] := by
  refine ⟨?_, ?_, ?_, ?_, ?_, ?_, ?_⟩ <;> decide

/-- C4, amended. For a failure response whose body carries a string message `m`
that holds no markup (no `<` and no character reference, the test of jQuery),
the failure callbacks of the list, update and retrieve actions of both
resources run to completion and the text of the status region contains `m`:
the list actions show "Failed to retrieve wishlists: " or
"Failed to retrieve products: " followed by `m`, the update and retrieve
actions show `m` itself. For a failure response without a body there is no
generic text: each of these callbacks ends with the TypeError of reading
`message`, without writing to the status region. -/
theorem fail_message_or_abort (dom : Dom) (m : String) (hm : rhtml m.data = false) :
    rejectWith list_btn_failCallbacks ⟨some ⟨.str m⟩⟩ dom =
      ({ dom with flash_message := [.text ("Failed to retrieve wishlists: " ++ m)] }, .normal) ∧
    rejectWith product_list_btn_failCallbacks ⟨some ⟨.str m⟩⟩ dom =
      ({ dom with flash_message := [.text ("Failed to retrieve products: " ++ m)] }, .normal) ∧
    (rejectWith update_btn_failCallbacks ⟨some ⟨.str m⟩⟩ dom).2 = .normal ∧
    regionText (rejectWith update_btn_failCallbacks ⟨some ⟨.str m⟩⟩ dom).1.flash_message
      = some m ∧
    (rejectWith product_update_btn_failCallbacks ⟨some ⟨.str m⟩⟩ dom).2 = .normal ∧
    regionText (rejectWith product_update_btn_failCallbacks ⟨some ⟨.str m⟩⟩ dom).1.flash_message
      = some m ∧
    (rejectWith retrieve_btn_failCallbacks ⟨some ⟨.str m⟩⟩ dom).2 = .normal ∧
    regionText (rejectWith retrieve_btn_failCallbacks ⟨some ⟨.str m⟩⟩ dom).1.flash_message
      = some m ∧
    (rejectWith product_retrieve_btn_failCallbacks ⟨some ⟨.str m⟩⟩ dom).2 = .normal ∧
    regionText
      (rejectWith product_retrieve_btn_failCallbacks ⟨some ⟨.str m⟩⟩ dom).1.flash_message
      = some m ∧
    rejectWith list_btn_failCallbacks ⟨none⟩ dom = (dom, .throw .typeError) ∧
    rejectWith product_list_btn_failCallbacks ⟨none⟩ dom = (dom, .throw .typeError) ∧
    rejectWith update_btn_failCallbacks ⟨none⟩ dom = (dom, .throw .typeError) ∧
    rejectWith product_update_btn_failCallbacks ⟨none⟩ dom = (dom, .throw .typeError) ∧
    (rejectWith retrieve_btn_failCallbacks ⟨none⟩ dom).2 = .throw .typeError ∧
    (rejectWith retrieve_btn_failCallbacks ⟨none⟩ dom).1.flash_message = dom.flash_message ∧
    (rejectWith product_retrieve_btn_failCallbacks ⟨none⟩ dom).2 = .throw .typeError ∧
    (rejectWith product_retrieve_btn_failCallbacks ⟨none⟩ dom).1.flash_message =
      dom.flash_message := by
  have ht := jqAppend_text m hm
  have hw := jqAppend_text_after "Failed to retrieve wishlists: " m (by decide) (by decide) hm
  have hp := jqAppend_text_after "Failed to retrieve products: " m (by decide) (by decide) hm
  simp only [rejectWith, list_btn_failCallbacks, list_btn_fail, product_list_btn_failCallbacks,
    product_list_btn_fail, update_btn_failCallbacks, update_btn_fail,
    product_update_btn_failCallbacks, product_update_btn_fail, retrieve_btn_failCallbacks,
    retrieve_btn_fail, product_retrieve_btn_failCallbacks, product_retrieve_btn_fail,
    responseMessage, flash_message, JSValue.toJSString, clear_form_data, hw, hp, ht]
  simp

/-- C4, amended, at the message "not found": the failed update shows it, the
failed list shows it after its fixed text. -/
theorem fail_message_or_abort_witness :
    rejectWith list_btn_failCallbacks ⟨some ⟨.str "not found"⟩⟩ samplePage =
      ({ samplePage with
          flash_message := [.text ("Failed to retrieve wishlists: " ++ "not found")] },
        .normal) ∧
    regionText
      (rejectWith update_btn_failCallbacks ⟨some ⟨.str "not found"⟩⟩ samplePage).1.flash_message
      = some "not found" :=
  have h := fail_message_or_abort samplePage "not found" (by decide)
  ⟨h.1, h.2.2.2.1⟩

/-- C5. A failed delete of a wishlist or of a product, whatever the failure
response holds, ends normally with the status region holding exactly the text
"Server error!" and every other element of the page, the form fields of both
resources included, as it was before the failure. -/
theorem delete_fail_server_error (dom : Dom) (res : JqXHR) :
    rejectWith delete_btn_failCallbacks res dom =
      ({ dom with flash_message := [.text "Server error!"] }, .normal) ∧
    rejectWith product_delete_btn_failCallbacks res dom =
      ({ dom with flash_message := [.text "Server error!"] }, .normal) ∧
    regionText [.text "Server error!"] = some "Server error!" := by
  refine ⟨?_, ?_, rfl⟩
  · have h : jqAppend (.str "Server error!") [] = [.text "Server error!"] := by decide
    simp only [rejectWith, delete_btn_failCallbacks, delete_btn_fail, flash_message, h]
  · have h : jqAppend (.str "Server error!") [] = [.text "Server error!"] := by decide
    simp only [rejectWith, product_delete_btn_failCallbacks, product_delete_btn_fail,
      flash_message, h]

/-- C6. A failed create-wishlist or create-product request is not surfaced: no
failure callback is registered, so the page after the failure is the page right
after the button activation, which is the page before the activation with the
status region emptied. -/
theorem create_fail_not_surfaced (today : JSDate) (dom : Dom) (res : JqXHR) :
    rejectWith create_btn_failCallbacks res (create_btn_click today dom).1 =
      ((create_btn_click today dom).1, .normal) ∧
    (create_btn_click today dom).1 = { dom with flash_message := [] } ∧
    rejectWith product_create_btn_failCallbacks res (product_create_btn_click dom).1 =
      ((product_create_btn_click dom).1, .normal) ∧
    (product_create_btn_click dom).1 = { dom with flash_message := [] } :=
  ⟨rfl, rfl, rfl, rfl⟩

/-! ## The create and update requests -/

/-- C9. Create-wishlist issues POST to "/wishlists" and update-wishlist issues
PUT to "/wishlists/" followed by the id field; both send the serialised object
with the keys name, date_joined, products, owner, in this order, holding the
name field, `getCurrentDate()`, the empty array and the owner field, so the body
depends on no other field. With name "Birthday" and owner "alice" on 7 March
2024 the body is the text of Scenario B. -/
theorem create_update_request (today : JSDate) (dom : Dom) :
    (create_btn_click today dom).2 =
      { type := "POST", url := "/wishlists", contentType := "application/json",
        data := JSON.stringify
          (wishlistBody dom.wishlist_name (getCurrentDate today) dom.user_name) } ∧
    (update_btn_click today dom).2 =
      { type := "PUT", url := "/wishlists/" ++ dom.wishlist_id,
        contentType := "application/json",
        data := JSON.stringify
          (wishlistBody dom.wishlist_name (getCurrentDate today) dom.user_name) } ∧
    (create_btn_click today dom).2.data = (update_btn_click today dom).2.data ∧
    (create_btn_click ⟨2024, 2, 7⟩ samplePage).2.data =
      "\x7b\"name\":\"Birthday\",\"date_joined\":\"2024-03-07\",\"products\":[],\"owner\":\"alice\"\x7d" ∧
    (update_btn_click ⟨2024, 2, 7⟩ samplePage).2 =
      { type := "PUT", url := "/wishlists/42", contentType := "application/json",
        data := "\x7b\"name\":\"Birthday\",\"date_joined\":\"2024-03-07\",\"products\":[],\"owner\":\"alice\"\x7d" } := by
  refine ⟨rfl, rfl, rfl, ?_, ?_⟩ <;> decide

/-! ## The rendered table of wishlists -/

theorem parseFrom_append (a b : List Char) (st : ParseState) :
    parseFrom st (a ++ b) = (parseFrom st a).bind (fun st1 => parseFrom st1 b) := by
  induction a generalizing st with
  | nil => rfl
  | cons c a ih =>
    simp only [List.cons_append, parseFrom]
    cases parseStep st c with
    | none => rfl
    | some st1 => exact ih st1

theorem parseFrom_text (u : List Char)
    (hu : ∀ c ∈ u, c ≠ '<' ∧ c ≠ '&' ∧ c ≠ '\r' ∧ c ≠ '\x00')
    (rows : List (List String)) (cells : List String) (t : List Char) :
    parseFrom ⟨rows, some cells, some t, none⟩ u = some ⟨rows, some cells, some (t ++ u), none⟩ := by
  induction u generalizing t with
  | nil => simp [parseFrom]
  | cons c u ih =>
    obtain ⟨h1, h2, h3, h4⟩ := hu c (List.mem_cons_self _ _)
    have hstep : parseStep ⟨rows, some cells, some t, none⟩ c =
        some ⟨rows, some cells, some (t ++ [c]), none⟩ := by
      simp [parseStep, h1, h2, h3, h4]
    simp only [parseFrom, hstep]
    rw [ih (fun d hd => hu d (List.mem_cons_of_mem _ hd))]
    simp

theorem parseFrom_row_open (rows : List (List String)) :
    parseFrom ⟨rows, none, none, none⟩ "<tr>\n                                    <td>".data =
      some ⟨rows, some [], some [], none⟩ := by
  rfl

theorem parseFrom_next_cell (rows : List (List String)) (cells : List String) (t : List Char) :
    parseFrom ⟨rows, some cells, some t, none⟩
        "</td>\n                                    <td>".data =
      some ⟨rows, some (cells ++ [String.mk t]), some [], none⟩ := by
  rfl

theorem parseFrom_row_close (rows : List (List String)) (cells : List String) (t : List Char) :
    parseFrom ⟨rows, some cells, some t, none⟩ "</td></tr>".data =
      some ⟨rows ++ [cells ++ [String.mk t]], none, none, none⟩ := by
  rfl

theorem plain_of_isPlainText (s : String) (h : isPlainText s = true) :
    ∀ c ∈ s.data, c ≠ '<' ∧ c ≠ '&' ∧ c ≠ '\r' ∧ c ≠ '\x00' := by
  intro c hc
  have := List.all_eq_true.mp h c hc
  simpa using this

theorem isPlainText_append (a b : String) :
    isPlainText (a ++ b) = (isPlainText a && isPlainText b) := by
  simp [isPlainText, String.data_append, List.all_append]

theorem isPlainText_intercalate (l : List String) (h : ∀ s ∈ l, isPlainText s = true) :
    isPlainText (", ".intercalate l) = true := by
  induction l with
  | nil => rfl
  | cons a l ih =>
    cases l with
    | nil =>
      have : ", ".intercalate [a] = a := rfl
      rw [this]
      exact h a (List.mem_cons_self _ _)
    | cons b l =>
      rw [intercalate_cons_cons, isPlainText_append, isPlainText_append,
        h a (List.mem_cons_self _ _), ih (fun s hs => h s (List.mem_cons_of_mem _ hs))]
      rfl

theorem parseFrom_wishlist_row (wishlist : Wishlist) (index : Nat) (array : List Wishlist)
    (tableContent : String) (rows : List (List String))
    (hacc : parseFrom ⟨[], none, none, none⟩ tableContent.data = some ⟨rows, none, none, none⟩)
    (hid : isPlainText wishlist.id.toJSString = true)
    (hname : isPlainText wishlist.name.toJSString = true)
    (hproducts : ∀ p ∈ wishlist.products, isPlainText p.name.toJSString = true) :
    parseFrom ⟨[], none, none, none⟩
        (list_btn_wishlist_callback wishlist index array tableContent).data =
      some ⟨rows ++ [wishlistCells wishlist], none, none, none⟩ := by
  have hjoin : isPlainText
      (", ".intercalate (wishlist.products.map (fun p => p.name.toJSString))) = true := by
    apply isPlainText_intercalate
    intro s hs
    obtain ⟨p, hp, rfl⟩ := List.mem_map.mp hs
    exact hproducts p hp
  rw [list_btn_wishlist_callback_eq]
  simp only [String.data_append, List.append_assoc]
  rw [parseFrom_append, hacc, Option.some_bind,
    parseFrom_append, parseFrom_row_open, Option.some_bind,
    parseFrom_append, parseFrom_text _ (plain_of_isPlainText _ hid), Option.some_bind,
    parseFrom_append, parseFrom_next_cell, Option.some_bind,
    parseFrom_append, parseFrom_text _ (plain_of_isPlainText _ hname), Option.some_bind,
    parseFrom_append, parseFrom_next_cell, Option.some_bind,
    parseFrom_append, parseFrom_text _ (plain_of_isPlainText _ hjoin), Option.some_bind,
    parseFrom_row_close]
  rfl

theorem parseFrom_wishlist_rows (array : List Wishlist) (rest : List Wishlist) (index : Nat)
    (tableContent : String) (rows : List (List String))
    (hacc : parseFrom ⟨[], none, none, none⟩ tableContent.data = some ⟨rows, none, none, none⟩)
    (hrest : ∀ w ∈ rest, isPlainText w.id.toJSString = true ∧
      isPlainText w.name.toJSString = true ∧
      ∀ p ∈ w.products, isPlainText p.name.toJSString = true) :
    parseFrom ⟨[], none, none, none⟩
        (forEachFrom list_btn_wishlist_callback array index rest tableContent).data =
      some ⟨rows ++ rest.map wishlistCells, none, none, none⟩ := by
  induction rest generalizing index tableContent rows with
  | nil => simpa [forEachFrom] using hacc
  | cons w rest ih =>
    obtain ⟨hid, hname, hproducts⟩ := hrest w (List.mem_cons_self _ _)
    have hrow := parseFrom_wishlist_row w index array tableContent rows hacc hid hname hproducts
    have := ih (index + 1) _ _ hrow (fun v hv => hrest v (List.mem_cons_of_mem _ hv))
    simpa [forEachFrom] using this

theorem rhtml_of_mem (l : List Char) (h : '<' ∈ l) : rhtml l = true := by
  induction l with
  | nil => simp at h
  | cons c l ih =>
    rcases List.mem_cons.mp h with hc | hl
    · subst hc; simp [rhtml]
    · simp [rhtml, ih hl]

theorem wishlist_rows_markup (array : List Wishlist) (rest : List Wishlist) (index : Nat)
    (tableContent : String) (h : '<' ∈ tableContent.data ∨ rest ≠ []) :
    '<' ∈ (forEachFrom list_btn_wishlist_callback array index rest tableContent).data := by
  induction rest generalizing index tableContent with
  | nil =>
    rcases h with h | h
    · simpa [forEachFrom] using h
    · exact absurd rfl h
  | cons w rest ih =>
    have hw : '<' ∈ (list_btn_wishlist_callback w index array tableContent).data := by
      rw [list_btn_wishlist_callback_eq]
      simp only [String.data_append, List.mem_append]
      exact Or.inr (by decide)
    simpa [forEachFrom] using ih (index + 1) _ (Or.inl hw)

/-- C8, as stated, fails: for a wishlist whose one product is named
`</td><td>X`, the join of the names is that name, but the row the list handler
renders has an empty product cell followed by a fourth cell "X". -/
theorem list_btn_done_markup_name :
    regionRows (list_btn_done
      [⟨.str "7", .str "Birthday", .str "alice",
        [⟨.str "1", .str "7", .str "</td><td>X", .str "1"⟩]⟩] samplePage).1.wishlist_table_body
      = some [["7", "Birthday", "", "X"]] ∧
    ", ".intercalate
      ((([⟨.str "1", .str "7", .str "</td><td>X", .str "1"⟩] : List Product)).map
        (fun p => p.name.toJSString)) = "</td><td>X" := by
  constructor <;> decide

/-- C8, amended. For every response of list-wishlists in which the ids and names
of the wishlists and the names of their products are text to the HTML parser
(no `<`, no `&`, no carriage return, no NUL), the table body rendered by the
`ajax.done` callback of the list handler has one row per wishlist, in response
order, with three cells: the id, the name and the product names in response
order joined with ", " (empty for no product, the name alone for one product,
no separator after the last name). -/
theorem list_btn_done_product_cells (res : List Wishlist) (dom : Dom)
    (hres : ∀ w ∈ res, isPlainText w.id.toJSString = true ∧
      isPlainText w.name.toJSString = true ∧
      ∀ p ∈ w.products, isPlainText p.name.toJSString = true) :
    regionRows (list_btn_done res dom).1.wishlist_table_body =
      some (res.map (fun w => [w.id.toJSString, w.name.toJSString,
        ", ".intercalate (w.products.map (fun p => p.name.toJSString))])) := by
  have hparse := parseFrom_wishlist_rows res res 0 "" [] rfl hres
  simp only [List.nil_append] at hparse
  have hrows : parseRows (forEach list_btn_wishlist_callback res "") =
      some (res.map wishlistCells) := by
    simp only [parseRows, forEach, hparse]
  cases hres_nil : res with
  | nil =>
    subst hres_nil
    rfl
  | cons w rest =>
    rw [← hres_nil]
    have hlt : '<' ∈ (forEach list_btn_wishlist_callback res "").data :=
      wishlist_rows_markup res res 0 "" (Or.inr (by rw [hres_nil]; simp))
    have hmarkup : rhtml (forEach list_btn_wishlist_callback res "").data = true :=
      rhtml_of_mem _ hlt
    have hne : forEach list_btn_wishlist_callback res "" ≠ "" := by
      intro he
      rw [he] at hlt
      simp at hlt
    have happend : jqAppend (.str (forEach list_btn_wishlist_callback res "")) [] =
        [.html (forEach list_btn_wishlist_callback res "")] := by
      show (if forEach list_btn_wishlist_callback res "" = "" then []
        else if rhtml (forEach list_btn_wishlist_callback res "").data = true
          then [] ++ [Content.html (forEach list_btn_wishlist_callback res "")]
          else [] ++ [Content.text (forEach list_btn_wishlist_callback res "")]) = _
      rw [if_neg hne, hmarkup]
      rfl
    have hbody : (list_btn_done res dom).1.wishlist_table_body =
        [.html (forEach list_btn_wishlist_callback res "")] := by
      simp only [list_btn_done, flash_message, happend]
    rw [hbody]
    simp only [regionRows, hrows, List.append_nil]
    rfl

/-- C8, amended, at Scenario D: a wishlist with the products "Ball" and "Bat"
is rendered as a row whose product cell reads "Ball, Bat". -/
theorem list_btn_done_product_cells_witness :
    regionRows (list_btn_done
      [⟨.str "7", .str "Birthday", .str "alice",
        [⟨.str "1", .str "7", .str "Ball", .str "1"⟩,
         ⟨.str "2", .str "7", .str "Bat", .str "3"⟩]⟩] samplePage).1.wishlist_table_body
      = some [["7", "Birthday", "Ball, Bat"]] :=
  (list_btn_done_product_cells _ samplePage (by decide)).trans (by decide)

end Wishlists
